import Mathlib

/-!
# Verification of the encodersim sliding-window engine

A shallow embedding, in Lean 4, of the core of the `encodersim` repository:
the replicated playlist FSM (`internal/cluster/fsm.go`), the HLS manifest
serializer (`internal/playlist/generator.go`) and the variant-playlist HTTP
routing (`internal/server/server.go`), together with theorems settling the
behavioural claims about them.

Modelling conventions:
* Go `int` fields are modelled as `Int` and Go `uint64` as `Nat`.  The
  sequence counter grows by one per applied command and the positions stay
  below the segment totals (slice lengths), so 64-bit wraparound is
  unreachable in any execution and is not modelled.
* Go's `%` operator (remainder truncated towards zero) is modelled by
  `Int.tmod` (the `goMod` helper below).
* Go strings used as HTTP paths are modelled as `List Char`; manifest text
  is modelled as `String`.
* Segment durations (`float64` in Go, printed with `%.3f`) are modelled as
  an integral number of milliseconds; the formatting of such durations by
  `%.3f` is exact, and every duration appearing in the specification's
  examples is of this form.
-/

namespace Encodersim

/-- Go's `%` on `int` values: remainder truncated towards zero
(`Int.tmod`).  Used by every sliding-window advance in the source. -/
def goMod (a b : Int) : Int :=
  Int.tmod a b

/-! ## Cluster state (`internal/cluster/fsm.go`, `ClusterState` / `VariantState`) -/

/-- `VariantState` from `fsm.go`: per-variant state for a multi-variant
master playlist.  Field order follows the Go struct. -/
structure VariantState where
  index : Int
  currentPosition : Int
  sequenceNumber : Nat
  totalSegments : Int
  deriving Repr, DecidableEq

instance : Inhabited VariantState :=
  ⟨⟨0, 0, 0, 0⟩⟩

/-- `ClusterState` from `fsm.go`: the shared state across all cluster
nodes.  `currentPosition`/`sequenceNumber`/`totalSegments` serve single
media playlists; `variants` serves multi-variant master playlists. -/
structure ClusterState where
  currentPosition : Int
  sequenceNumber : Nat
  variants : List VariantState
  totalSegments : Int
  deriving Repr, DecidableEq

instance : Inhabited ClusterState :=
  ⟨⟨0, 0, [], 0⟩⟩

/-- The commands `PlaylistFSM.Apply` understands, with their payloads
(`AdvanceWindowCommand` carries the variant index, `-1` meaning all
variants; `InitializeCommand` carries a full `ClusterState`). -/
inductive Cmd where
  | advanceWindow (variantIndex : Int)
  | initializeState (state : ClusterState)
  deriving Repr, DecidableEq

/-- The single-variant advance step shared by all branches of
`applyAdvanceWindow`: guard the modulo by `TotalSegments > 0`, always
increment the variant's sequence number. -/
def advanceVariant (v : VariantState) : VariantState :=
  { v with
    currentPosition :=
      if 0 < v.totalSegments then goMod (v.currentPosition + 1) v.totalSegments
      else v.currentPosition,
    sequenceNumber := v.sequenceNumber + 1 }

/-- `PlaylistFSM.applyAdvanceWindow` (fsm.go:114-152).  Returns the new
state together with the command's result (`none` models the `nil` Go
return value, `some msg` an error).  With a well-typed payload the Go
function returns `nil` on every path. -/
def applyAdvanceWindow (s : ClusterState) (variantIndex : Int) :
    ClusterState × Option String :=
  if s.variants.length = 0 then
    -- Single media playlist mode
    ({ s with
        currentPosition :=
          if 0 < s.totalSegments then goMod (s.currentPosition + 1) s.totalSegments
          else s.currentPosition,
        sequenceNumber := s.sequenceNumber + 1 }, none)
  else if variantIndex = -1 then
    -- Multi-variant mode: advance all variants
    ({ s with variants := s.variants.map advanceVariant }, none)
  else if 0 ≤ variantIndex ∧ variantIndex < (s.variants.length : Int) then
    -- Advance specific variant
    ({ s with
        variants :=
          s.variants.set variantIndex.toNat
            (advanceVariant (s.variants.getD variantIndex.toNat default)) }, none)
  else
    (s, none)

/-- `PlaylistFSM.applyInitialize` (fsm.go:155-164): overwrites the whole
FSM state with the command's payload and returns `nil`. -/
def applyInitialize (_s : ClusterState) (payload : ClusterState) :
    ClusterState × Option String :=
  (payload, none)

/-- The `switch cmd.Type` dispatch of `PlaylistFSM.Apply` (fsm.go:92-111)
restricted to well-formed decoded commands. -/
def applyCmd (s : ClusterState) (c : Cmd) : ClusterState × Option String :=
  match c with
  | .advanceWindow variantIndex => applyAdvanceWindow s variantIndex
  | .initializeState payload => applyInitialize s payload

/-! ## Snapshot / persist / restore (fsm.go:167-236)

`fsmSnapshot.Persist` serializes the captured state with `encoding/gob`
(standard-library collaborator) and `PlaylistFSM.Restore` decodes it back.
`gob` is a lossless, self-describing codec for the exported fields of
`ClusterState`; it is modelled here by a concrete executable token codec
covering exactly those fields, in struct order. -/

/-- `PlaylistFSM.Snapshot`'s deep copy of the state: every field copied
explicitly, the `Variants` slice element-wise (`copy`). -/
def snapshotOf (s : ClusterState) : ClusterState :=
  ClusterState.mk s.currentPosition s.sequenceNumber
    (s.variants.map (fun v => v)) s.totalSegments

/-- Token encoding of one `VariantState`: its four exported fields in
struct order (the image of gob-encoding the struct). -/
def encodeVariant (v : VariantState) : List Int :=
  [v.index, v.currentPosition, (v.sequenceNumber : Int), v.totalSegments]

/-- `fsmSnapshot.Persist`: the byte-string written to the snapshot sink,
modelled as the token stream of the gob encoding of `ClusterState`
(all four exported fields, then the variants in order). -/
def persistSnapshot (s : ClusterState) : List Int :=
  [s.currentPosition, (s.sequenceNumber : Int), s.totalSegments,
    (s.variants.length : Int)] ++ s.variants.flatMap encodeVariant

/-- Decoder for the variant list: reads `n` groups of four tokens. -/
def decodeVariants : Nat → List Int → Option (List VariantState × List Int)
  | 0, rest => some ([], rest)
  | n + 1, a :: b :: c :: d :: rest =>
    match decodeVariants n rest with
    | some (vs, r) => some (VariantState.mk a b c.toNat d :: vs, r)
    | none => none
  | _ + 1, _ => none

/-- `PlaylistFSM.Restore`: gob-decode a snapshot byte-string back into a
`ClusterState` (`none` models the fatal decode error). -/
def restoreState (bytes : List Int) : Option ClusterState :=
  match bytes with
  | p :: sq :: t :: n :: rest =>
    match decodeVariants n.toNat rest with
    | some (vs, []) => some (ClusterState.mk p sq.toNat vs t)
    | _ => none
  | _ => none

/-! ## Segments, variants and the manifest serializer
(`internal/segment/segment.go`, `internal/variant/variant.go`,
`internal/playlist/generator.go`) -/

/-- `segment.Segment`: one HLS video segment.  `durationMs` models the
Go `float64` duration in milliseconds (see the module comment). -/
structure Segment where
  url : String
  durationMs : Nat
  sequence : Int
  deriving Repr, DecidableEq

instance : Inhabited Segment :=
  ⟨⟨"", 0, 0⟩⟩

/-- `variant.Variant`: one variant stream of a master playlist (the
fields the serializer reads). -/
structure Variant where
  bandwidth : Int
  resolution : String
  codecs : String
  segments : List Segment
  targetDuration : Int
  deriving Repr, DecidableEq

/-- `mediaPlaylist` (generator.go:863-873): the sliding-window state for
one media playlist. -/
structure MediaPlaylist where
  segments : List Segment
  windowSize : Int
  currentPosition : Int
  sequenceNumber : Nat
  targetDuration : Int
  deriving Repr, DecidableEq

instance : Inhabited MediaPlaylist :=
  ⟨⟨[], 0, 0, 0, 0⟩⟩

/-- Zero-pad a numeral below 1000 to three digits (the fractional part
of Go's `%.3f`). -/
def pad3 (n : Nat) : String :=
  if n < 10 then "00" ++ toString n
  else if n < 100 then "0" ++ toString n
  else toString n

/-- Go's `%.3f` applied to a duration of `ms` milliseconds (exact for
all such durations). -/
def fmtDurMs (ms : Nat) : String :=
  toString (ms / 1000) ++ "." ++ pad3 (ms % 1000)

/-- `mediaPlaylist.getCurrentWindow` (generator.go:940-950): segment `i`
of the window is `segments[(currentPosition + i) % len(segments)]`. -/
def getCurrentWindow (mp : MediaPlaylist) : List Segment :=
  (List.range mp.windowSize.toNat).map fun i =>
    mp.segments.getD ((goMod (mp.currentPosition + i) mp.segments.length)).toNat default

/-- The text the body loop of `mediaPlaylist.generate` appends for window
index `i`: the discontinuity tag when `i > 0` and this segment's origin
sequence is below the previous one's, then the `#EXTINF` line, then the
URL line. -/
def segBlockAt (w : List Segment) (i : Nat) : String :=
  (if 0 < i ∧ (w.getD i default).sequence < (w.getD (i - 1) default).sequence
    then "#EXT-X-DISCONTINUITY\n" else "")
  ++ "#EXTINF:" ++ fmtDurMs (w.getD i default).durationMs ++ ",\n"
  ++ (w.getD i default).url ++ "\n"

/-- The `for i, seg := range windowSegments` loop of
`mediaPlaylist.generate` (generator.go:892-902), from index `i` on. -/
def mediaLoop (w : List Segment) (i : Nat) : String :=
  if _h : i < w.length then segBlockAt w i ++ mediaLoop w (i + 1) else ""
termination_by w.length - i

/-- `mediaPlaylist.generate` (generator.go:876-907): header tags followed
by the window's segment blocks; no `#EXT-X-ENDLIST` is ever written. -/
def generateMedia (mp : MediaPlaylist) : String :=
  "#EXTM3U\n" ++ "#EXT-X-VERSION:3\n"
  ++ "#EXT-X-TARGETDURATION:" ++ toString mp.targetDuration ++ "\n"
  ++ "#EXT-X-MEDIA-SEQUENCE:" ++ toString mp.sequenceNumber ++ "\n"
  ++ mediaLoop (getCurrentWindow mp) 0

/-- The `#EXT-X-STREAM-INF` line `Playlist.Generate` assembles for one
variant: `BANDWIDTH` always, `RESOLUTION` and `CODECS` when non-empty. -/
def streamInfLine (v : Variant) : String :=
  "#EXT-X-STREAM-INF:" ++ "BANDWIDTH=" ++ toString v.bandwidth
  ++ (if v.resolution ≠ "" then ",RESOLUTION=" ++ v.resolution else "")
  ++ (if v.codecs ≠ "" then ",CODECS=\"" ++ v.codecs ++ "\"" else "")

/-- The variant loop of `Playlist.Generate` (generator.go:691-708),
carrying the running variant index `i`. -/
def masterBody : Nat → List Variant → String
  | _, [] => ""
  | i, v :: rest =>
    streamInfLine v ++ "\n"
    ++ "/variant/" ++ toString i ++ "/playlist.m3u8\n"
    ++ masterBody (i + 1) rest

/-- `Playlist.Generate` (generator.go:683-711): the master playlist. -/
def generateMaster (variants : List Variant) : String :=
  "#EXTM3U\n" ++ "#EXT-X-VERSION:3\n" ++ masterBody 0 variants

/-- `playlist.Playlist` (generator.go:602-607), non-clustered: variant
metadata for the master manifest plus one `mediaPlaylist` per variant. -/
structure Playlist where
  variants : List Variant
  variantPlaylists : List MediaPlaylist
  deriving Repr, DecidableEq

/-- `Playlist.GenerateVariant` (generator.go:714-736), non-clustered:
bounds-check the index, then delegate to that variant's
`mediaPlaylist.generate`. -/
def Playlist.generateVariant (p : Playlist) (variantIndex : Int) :
    Except String String :=
  if variantIndex < 0 ∨ (p.variantPlaylists.length : Int) ≤ variantIndex then
    .error ("variant index " ++ toString variantIndex ++ " out of range")
  else
    .ok (generateMedia (p.variantPlaylists.getD variantIndex.toNat default))

/-! ## HTTP routing of variant playlists (`internal/server/server.go`) -/

/-- `strings.HasPrefix`. -/
def hasPrefixL (pre s : List Char) : Bool :=
  pre.isPrefixOf s

/-- `strings.TrimPrefix`: drop `pre` when it is a prefix, else return the
string unchanged. -/
def trimPrefixL (pre s : List Char) : List Char :=
  if pre.isPrefixOf s then s.drop pre.length else s

/-- `strings.HasSuffix`. -/
def hasSuffixL (suf s : List Char) : Bool :=
  suf.isSuffixOf s

/-- `strings.TrimSuffix`: drop `suf` when it is a suffix, else return the
string unchanged. -/
def trimSuffixL (suf s : List Char) : List Char :=
  if suf.isSuffixOf s then s.take (s.length - suf.length) else s

/-- Decimal digit accumulator of `strconv.Atoi`'s fast path: fails on the
first non-digit character. -/
def digitsGo : List Char → Nat → Option Nat
  | [], acc => some acc
  | c :: rest, acc =>
    if c.isDigit then digitsGo rest (acc * 10 + (c.toNat - '0'.toNat)) else none

/-- Parse a non-empty all-digit string to a `Nat`. -/
def digitsToNat? (s : List Char) : Option Nat :=
  match s with
  | [] => none
  | _ => digitsGo s 0

/-- `strconv.Atoi` on a 64-bit platform: optional sign, decimal digits,
error outside the `int64` range. -/
def goAtoi (s : List Char) : Option Int :=
  match s with
  | '+' :: rest =>
    (digitsToNat? rest).bind fun m =>
      if m ≤ 2 ^ 63 - 1 then some (m : Int) else none
  | '-' :: rest =>
    (digitsToNat? rest).bind fun m =>
      if m ≤ 2 ^ 63 then some (-(m : Int)) else none
  | _ =>
    (digitsToNat? s).bind fun m =>
      if m ≤ 2 ^ 63 - 1 then some (m : Int) else none

/-- `Server.handleVariantPlaylist` (server.go:97-131): require the
`/variant` prefix and `/playlist.m3u8` suffix (else 404), trim both and
`Atoi` the middle (else 400), then serve the generated variant playlist
(404 when generation reports the index out of range).  Result is the
HTTP status code and the response body. -/
def handleVariantPlaylist (p : Playlist) (path : List Char) : Nat × String :=
  if ¬(hasPrefixL "/variant".data path ∧ hasSuffixL "/playlist.m3u8".data path) then
    (404, "404 page not found\n")
  else
    match goAtoi (trimSuffixL "/playlist.m3u8".data (trimPrefixL "/variant".data path)) with
    | none => (400, "Invalid variant index\n")
    | some idx =>
      match p.generateVariant idx with
      | .error e => (404, "Failed to generate variant playlist: " ++ e ++ "\n")
      | .ok body => (200, body)

/-! ## Specification-side descriptions of the serializer output

These definitions restate, in the words of the specification, the line
structure the manifests are claimed to have; the theorems below compare
them with the serializer translated from the source. -/

/-- Concatenate lines, terminating each with LF — the wire format of a
manifest whose serializer writes newline-terminated lines. -/
def joinLines : List String → String
  | [] => ""
  | l :: ls => l ++ "\n" ++ joinLines ls

/-- Spec §4.2, media manifest: "for each segment s in window view, in
order: if not first and s.sequence < previous.sequence,
`#EXT-X-DISCONTINUITY`; `#EXTINF:<duration>,`; `<url>`".  The first
argument carries the previous segment (`none` at the head of the
window). -/
def specSegBlocks : Option Segment → List Segment → List String
  | _, [] => []
  | prev, s :: rest =>
    (match prev with
      | some p => if s.sequence < p.sequence then ["#EXT-X-DISCONTINUITY"] else []
      | none => [])
    ++ ["#EXTINF:" ++ fmtDurMs s.durationMs ++ ",", s.url]
    ++ specSegBlocks (some s) rest

/-- Spec §4.2: the four header tags of a media manifest. -/
def mediaHeaderLines (mp : MediaPlaylist) : List String :=
  ["#EXTM3U", "#EXT-X-VERSION:3",
    "#EXT-X-TARGETDURATION:" ++ toString mp.targetDuration,
    "#EXT-X-MEDIA-SEQUENCE:" ++ toString mp.sequenceNumber]

/-- Spec §4.2, master manifest: one `#EXT-X-STREAM-INF` line per variant
carrying `BANDWIDTH=<n>` and, when present, `,RESOLUTION=<r>` and
`,CODECS="<c>"`. -/
def specStreamInf (v : Variant) : String :=
  "#EXT-X-STREAM-INF:BANDWIDTH=" ++ toString v.bandwidth
  ++ (if v.resolution ≠ "" then ",RESOLUTION=" ++ v.resolution else "")
  ++ (if v.codecs ≠ "" then ",CODECS=\"" ++ v.codecs ++ "\"" else "")

/-- Spec §4.2, master manifest: `#EXTM3U`, `#EXT-X-VERSION:3`, then for
each variant in definition order its `#EXT-X-STREAM-INF` line immediately
followed by `/variant/<index>/playlist.m3u8`. -/
def specMasterLines (variants : List Variant) : List String :=
  ["#EXTM3U", "#EXT-X-VERSION:3"]
  ++ (variants.enum.flatMap fun iv =>
      [specStreamInf iv.2, "/variant/" ++ toString iv.1 ++ "/playlist.m3u8"])

/-- Whether `pat` occurs as a contiguous substring. -/
def hasSubstring (pat : List Char) : List Char → Bool
  | [] => pat.isEmpty
  | c :: rest => pat.isPrefixOf (c :: rest) || hasSubstring pat rest

/-- The segment preceding window index `i` (`none` at the head), as read
by the `windowSegments[i-1]` access in `mediaPlaylist.generate`. -/
def prevAt (w : List Segment) (i : Nat) : Option Segment :=
  if i = 0 then none else some (w.getD (i - 1) default)

/-! ## Helper lemmas -/

/-- Go's `%` agrees with mathematical `mod` on non-negative dividends and
positive divisors, hence lands in `[0, b)`. -/
theorem goMod_bounds {a b : Int} (ha : 0 ≤ a) (hb : 0 < b) :
    0 ≤ goMod a b ∧ goMod a b < b := by
  obtain ⟨m, rfl⟩ := Int.eq_ofNat_of_zero_le ha
  obtain ⟨k, rfl⟩ := Int.eq_ofNat_of_zero_le (le_of_lt hb)
  have hk : 0 < k := by exact_mod_cast hb
  have h : goMod (m : Int) (k : Int) = ((m % k : Nat) : Int) := rfl
  rw [h]
  constructor
  · exact Int.ofNat_nonneg _
  · exact_mod_cast Nat.mod_lt m hk

theorem joinLines_append (xs ys : List String) :
    joinLines (xs ++ ys) = joinLines xs ++ joinLines ys := by
  induction xs with
  | nil => simp [joinLines]
  | cons x xs ih => simp [joinLines, ih, String.append_assoc]

theorem decodeVariants_roundtrip (vs : List VariantState) (rest : List Int) :
    decodeVariants vs.length (vs.flatMap encodeVariant ++ rest) = some (vs, rest) := by
  induction vs with
  | nil => simp [decodeVariants]
  | cons v vs ih =>
    simp only [List.length_cons, List.flatMap_cons, List.append_assoc]
    simp [decodeVariants, encodeVariant, ih]

theorem comma_newline_split : (",\n" : String) = "," ++ "\n" :=
  rfl

theorem disc_newline_split :
    ("#EXT-X-DISCONTINUITY\n" : String) = "#EXT-X-DISCONTINUITY" ++ "\n" :=
  rfl

theorem extm3u_newline_split : ("#EXTM3U\n" : String) = "#EXTM3U" ++ "\n" :=
  rfl

theorem version_newline_split :
    ("#EXT-X-VERSION:3\n" : String) = "#EXT-X-VERSION:3" ++ "\n" :=
  rfl

/-- The serializer's body loop, from any index on, produces exactly the
specification's per-segment blocks for the rest of the window, the
previous segment being the one the loop would read at `i - 1`. -/
theorem mediaLoop_eq_specSegBlocks (w : List Segment) :
    ∀ n i, w.length - i ≤ n →
      mediaLoop w i = joinLines (specSegBlocks (prevAt w i) (w.drop i)) := by
  intro n
  induction n with
  | zero =>
    intro i h
    have hi : w.length ≤ i := by omega
    rw [mediaLoop, dif_neg (by omega), List.drop_eq_nil_of_le hi]
    cases hp : prevAt w i <;> simp [specSegBlocks, joinLines]
  | succ n ih =>
    intro i h
    by_cases hi : i < w.length
    · rw [mediaLoop, dif_pos hi, List.drop_eq_getElem_cons hi,
        ih (i + 1) (by omega)]
      have e1 : w.getD i default = w[i] := List.getD_eq_getElem w default hi
      have hnext : prevAt w (i + 1) = some w[i] := by
        simp only [prevAt, Nat.succ_ne_zero, if_false, Nat.add_sub_cancel]
        rw [e1]
      rw [hnext]
      by_cases h0 : i = 0
      · subst h0
        simp only [segBlockAt, specSegBlocks, prevAt, if_pos rfl, e1,
          joinLines, joinLines_append, Nat.lt_irrefl, false_and, if_false,
          List.nil_append, comma_newline_split, String.append_assoc,
          String.empty_append]
        simp
      · have hi1 : i - 1 < w.length := by omega
        have e2 : w.getD (i - 1) default = w[i - 1] := List.getD_eq_getElem w default hi1
        have hprev : prevAt w i = some w[i - 1] := by
          simp only [prevAt, if_neg h0]
          rw [e2]
        rw [hprev]
        have hpos : 0 < i := Nat.pos_of_ne_zero h0
        by_cases hlt : w[i].sequence < w[i - 1].sequence
        · simp only [segBlockAt, specSegBlocks, e1, e2, hlt, hpos, and_true,
            true_and, if_true, if_pos, joinLines, joinLines_append,
            comma_newline_split, disc_newline_split, List.cons_append,
            List.nil_append, String.append_assoc]
        · simp only [segBlockAt, specSegBlocks, e1, e2, hlt, hpos, and_false,
            if_false, joinLines, joinLines_append, comma_newline_split,
            List.nil_append, String.append_assoc, String.empty_append]
    · rw [mediaLoop, dif_neg hi, List.drop_eq_nil_of_le (by omega)]
      cases hp : prevAt w i <;> simp [specSegBlocks, joinLines]

/-- `mediaPlaylist.generate` emits the header tags and then, for the
window view, the specification's blocks: a single `#EXT-X-DISCONTINUITY`
line between a segment's URL and the next `#EXTINF` exactly when the
origin sequence drops, and nothing else. -/
theorem generateMedia_eq_spec (mp : MediaPlaylist) :
    generateMedia mp
      = joinLines (mediaHeaderLines mp ++ specSegBlocks none (getCurrentWindow mp)) := by
  have h := mediaLoop_eq_specSegBlocks (getCurrentWindow mp)
    (getCurrentWindow mp).length 0 (by omega)
  have h0 : prevAt (getCurrentWindow mp) 0 = none := by
    simp [prevAt]
  rw [h0, List.drop_zero] at h
  rw [generateMedia, h]
  simp only [mediaHeaderLines, joinLines, joinLines_append, List.cons_append,
    List.nil_append, extm3u_newline_split, version_newline_split,
    String.append_assoc]
  simp

theorem playlist_newline_split :
    ("/playlist.m3u8\n" : String) = "/playlist.m3u8" ++ "\n" :=
  rfl

theorem streamInf_split :
    ("#EXT-X-STREAM-INF:" : String) ++ "BANDWIDTH=" = "#EXT-X-STREAM-INF:BANDWIDTH=" :=
  rfl

/-- The source's piecewise `#EXT-X-STREAM-INF` assembly builds exactly
the specification's attribute line. -/
theorem streamInfLine_eq_spec (v : Variant) :
    streamInfLine v = specStreamInf v := by
  rw [streamInfLine, specStreamInf, streamInf_split]

/-- The variant loop of `Playlist.Generate` produces the specification's
per-variant line pairs, indices starting at `i`. -/
theorem masterBody_eq_spec (vs : List Variant) :
    ∀ i, masterBody i vs
      = joinLines ((vs.enumFrom i).flatMap fun iv =>
          [specStreamInf iv.2, "/variant/" ++ toString iv.1 ++ "/playlist.m3u8"]) := by
  induction vs with
  | nil => intro i; simp [masterBody, joinLines]
  | cons v vs ih =>
    intro i
    simp only [masterBody, List.enumFrom, List.flatMap_cons, joinLines_append,
      joinLines, ih (i + 1), streamInfLine_eq_spec, String.append_assoc,
      String.append_empty, playlist_newline_split]
    simp [List.flatMap]

/-- `Playlist.Generate` emits the specification's master manifest lines:
the two header tags, then for each variant in definition order its
`#EXT-X-STREAM-INF` line followed by `/variant/<index>/playlist.m3u8`. -/
theorem generateMaster_eq_spec (variants : List Variant) :
    generateMaster variants = joinLines (specMasterLines variants) := by
  rw [generateMaster, masterBody_eq_spec variants 0]
  simp only [specMasterLines, List.enum, joinLines_append, joinLines,
    List.cons_append, List.nil_append, extm3u_newline_split,
    version_newline_split, String.append_assoc]
  simp

/-- Element access through `map` for in-range indices. -/
theorem getD_map_of_lt {α : Type} [Inhabited α] (l : List α) (f : α → α)
    (i : Nat) (h : i < l.length) :
    (l.map f).getD i default = f (l.getD i default) := by
  rw [List.getD_eq_getElem _ default (by simpa using h),
    List.getD_eq_getElem _ default h, List.getElem_map]

/-- Element access through `set` at the written index. -/
theorem getD_set_self {α : Type} [Inhabited α] (l : List α) (a : α)
    (i : Nat) (h : i < l.length) :
    (l.set i a).getD i default = a := by
  rw [List.getD_eq_getElem _ default (by simpa using h), List.getElem_set_self]

/-- Element access through `set` away from the written index. -/
theorem getD_set_ne {α : Type} [Inhabited α] (l : List α) (a : α)
    (i j : Nat) (hne : j ≠ i) (h : j < l.length) :
    (l.set i a).getD j default = l.getD j default := by
  rw [List.getD_eq_getElem _ default (by simpa using h),
    List.getD_eq_getElem _ default h, List.getElem_set_ne (fun he => hne he.symm)]

/-! ## Concrete inputs from the specification's examples -/

/-- The spec's two-variant master-manifest example: bandwidth 1280000
with resolution 640x360, and 2560000 with 1280x720. -/
def c2Variants : List Variant :=
  [{ bandwidth := 1280000, resolution := "640x360", codecs := "",
      segments := [], targetDuration := 1 },
    { bandwidth := 2560000, resolution := "1280x720", codecs := "",
      segments := [], targetDuration := 1 }]

/-- The spec's basic-wrap example: 5 one-second segments numbered 0..4. -/
def c6Segments : List Segment :=
  [{ url := "https://cdn.example/seg0.ts", durationMs := 1000, sequence := 0 },
    { url := "https://cdn.example/seg1.ts", durationMs := 1000, sequence := 1 },
    { url := "https://cdn.example/seg2.ts", durationMs := 1000, sequence := 2 },
    { url := "https://cdn.example/seg3.ts", durationMs := 1000, sequence := 3 },
    { url := "https://cdn.example/seg4.ts", durationMs := 1000, sequence := 4 }]

/-- The basic-wrap example's playlist state after three advances:
window size 3, position 3, media sequence 3, target duration 1. -/
def c6Mp : MediaPlaylist :=
  { segments := c6Segments, windowSize := 3, currentPosition := 3,
    sequenceNumber := 3, targetDuration := 1 }

/-! ## Claim theorems -/

set_option maxRecDepth 4096 in
/-- C2: with multiple variants the master playlist is exactly `#EXTM3U`,
`#EXT-X-VERSION:3`, then per variant in definition order one
`#EXT-X-STREAM-INF` line (BANDWIDTH, RESOLUTION when present) followed by
`/variant/<index>/playlist.m3u8`; on the spec's two-variant example the
output equals the quoted byte string and contains no `.ts` substring. -/
theorem master_manifest_shape :
    (∀ variants : List Variant,
      generateMaster variants = joinLines (specMasterLines variants)) ∧
    generateMaster c2Variants
      = "#EXTM3U\n#EXT-X-VERSION:3\n#EXT-X-STREAM-INF:BANDWIDTH=1280000,RESOLUTION=640x360\n/variant/0/playlist.m3u8\n#EXT-X-STREAM-INF:BANDWIDTH=2560000,RESOLUTION=1280x720\n/variant/1/playlist.m3u8\n" ∧
    hasSubstring ".ts".data (generateMaster c2Variants).data = false :=
  ⟨generateMaster_eq_spec, by decide, by decide⟩

set_option maxRecDepth 4096 in
/-- C6: in every generated media manifest exactly one
`#EXT-X-DISCONTINUITY` line separates a segment's URL from the next
segment's `#EXTINF` when and only when the next origin sequence is lower
(the spec-side block structure), and on the spec's 5-segment window-3
example at sequence 3 the lines are, in order: the four header tags,
`#EXTINF:1.000,`, segment 3's URL, `#EXTINF:1.000,`, segment 4's URL,
`#EXT-X-DISCONTINUITY`, `#EXTINF:1.000,`, segment 0's URL. -/
theorem media_discontinuity_placement :
    (∀ mp : MediaPlaylist,
      generateMedia mp
        = joinLines (mediaHeaderLines mp ++ specSegBlocks none (getCurrentWindow mp))) ∧
    generateMedia c6Mp
      = joinLines ["#EXTM3U", "#EXT-X-VERSION:3", "#EXT-X-TARGETDURATION:1",
          "#EXT-X-MEDIA-SEQUENCE:3",
          "#EXTINF:1.000,", "https://cdn.example/seg3.ts",
          "#EXTINF:1.000,", "https://cdn.example/seg4.ts",
          "#EXT-X-DISCONTINUITY",
          "#EXTINF:1.000,", "https://cdn.example/seg0.ts"] :=
  ⟨generateMedia_eq_spec, by rw [generateMedia_eq_spec c6Mp]; decide⟩

/-- C7: snapshot followed by persist followed by restore is the identity
on the window state — for every `ClusterState` the restored state equals
the snapshotted one in all fields (positions, sequence numbers,
totals). -/
theorem snapshot_restore_roundtrip (S : ClusterState) :
    restoreState (persistSnapshot (snapshotOf S)) = some S := by
  cases S with
  | mk p sq vs t =>
    have hsnap : snapshotOf ⟨p, sq, vs, t⟩ = ⟨p, sq, vs, t⟩ := by
      simp [snapshotOf]
    rw [hsnap]
    have h := decodeVariants_roundtrip vs []
    rw [List.append_nil] at h
    show restoreState
        (p :: (sq : Int) :: t :: (vs.length : Int) :: vs.flatMap encodeVariant)
      = some ⟨p, sq, vs, t⟩
    simp [restoreState, Int.toNat_natCast, h]

/-! ## FSM claim theorems -/

/-- What a whole-cluster advance is claimed to do (C1): every variant's
position becomes `(old + 1) mod total`, lands in `[0, total)`, and its
sequence number grows by exactly one; in single-playlist mode the same
holds for the single position and the global sequence number. -/
def AdvanceAllSpec (s : ClusterState) : Prop :=
  (applyAdvanceWindow s (-1)).2 = none ∧
  (applyAdvanceWindow s (-1)).1.variants.length = s.variants.length ∧
  (∀ i, i < s.variants.length →
    ((applyAdvanceWindow s (-1)).1.variants.getD i default).currentPosition
        = goMod ((s.variants.getD i default).currentPosition + 1)
            (s.variants.getD i default).totalSegments
      ∧ 0 ≤ ((applyAdvanceWindow s (-1)).1.variants.getD i default).currentPosition
      ∧ ((applyAdvanceWindow s (-1)).1.variants.getD i default).currentPosition
          < (s.variants.getD i default).totalSegments
      ∧ ((applyAdvanceWindow s (-1)).1.variants.getD i default).sequenceNumber
          = (s.variants.getD i default).sequenceNumber + 1) ∧
  (s.variants = [] →
    (applyAdvanceWindow s (-1)).1.currentPosition
        = goMod (s.currentPosition + 1) s.totalSegments
      ∧ 0 ≤ (applyAdvanceWindow s (-1)).1.currentPosition
      ∧ (applyAdvanceWindow s (-1)).1.currentPosition < s.totalSegments
      ∧ (applyAdvanceWindow s (-1)).1.sequenceNumber = s.sequenceNumber + 1)

/-- C1: in every FSM state whose variants all have positive totals (and,
in single-playlist mode, whose total is positive), with every position in
range, one `AdvanceWindow` with scope all sets each position to
`(old + 1) mod total` — hence in `[0, total)` — and increments each
exposed sequence number by exactly one. -/
theorem advance_all_positions_and_sequence (s : ClusterState)
    (hv : ∀ v ∈ s.variants, 0 < v.totalSegments ∧ 0 ≤ v.currentPosition)
    (hs : s.variants = [] → 0 < s.totalSegments ∧ 0 ≤ s.currentPosition) :
    AdvanceAllSpec s := by
  by_cases hempty : s.variants = []
  · obtain ⟨ht, hp⟩ := hs hempty
    have hlen : s.variants.length = 0 := by simp [hempty]
    have hres : applyAdvanceWindow s (-1)
        = ({ s with
              currentPosition := goMod (s.currentPosition + 1) s.totalSegments,
              sequenceNumber := s.sequenceNumber + 1 }, none) := by
      simp [applyAdvanceWindow, hlen, ht]
    refine ⟨by rw [hres], by rw [hres], ?_, ?_⟩
    · intro i hi
      rw [hlen] at hi
      exact absurd hi (by omega)
    · intro _
      rw [hres]
      exact ⟨rfl, (goMod_bounds (by omega) ht).1, (goMod_bounds (by omega) ht).2, rfl⟩
  · have hlen : ¬s.variants.length = 0 := by
      simpa using hempty
    have hres : applyAdvanceWindow s (-1)
        = ({ s with variants := s.variants.map advanceVariant }, none) := by
      simp [applyAdvanceWindow, hlen]
    refine ⟨by rw [hres], by rw [hres]; simp, ?_, fun h => absurd h hempty⟩
    intro i hi
    have e : ((applyAdvanceWindow s (-1)).1.variants).getD i default
        = advanceVariant (s.variants.getD i default) := by
      rw [hres]
      exact getD_map_of_lt _ _ i hi
    have hmem : s.variants.getD i default ∈ s.variants := by
      rw [List.getD_eq_getElem _ default hi]
      exact List.getElem_mem hi
    obtain ⟨htot, hpos⟩ := hv _ hmem
    refine ⟨?_, ?_, ?_, ?_⟩
    · rw [e]
      simp only [advanceVariant]
      rw [if_pos htot]
    · rw [e]
      simp only [advanceVariant]
      rw [if_pos htot]
      exact (goMod_bounds (by omega) htot).1
    · rw [e]
      simp only [advanceVariant]
      rw [if_pos htot]
      exact (goMod_bounds (by omega) htot).2
    · rw [e]
      simp only [advanceVariant]

/-- A concrete two-variant state with positive totals and in-range
positions, for the C1 witness. -/
def c1State : ClusterState :=
  { currentPosition := 0, sequenceNumber := 0,
    variants :=
      [{ index := 0, currentPosition := 4, sequenceNumber := 6, totalSegments := 5 },
        { index := 1, currentPosition := 2, sequenceNumber := 6, totalSegments := 3 }],
    totalSegments := 0 }

/-- Witness for C1 at `c1State` (variant 0 wraps 4 → 0, variant 1 wraps
2 → 0, both sequence numbers go 6 → 7). -/
theorem advance_all_positions_and_sequence_witness :
    (∀ v ∈ c1State.variants, 0 < v.totalSegments ∧ 0 ≤ v.currentPosition) ∧
    (c1State.variants = [] → 0 < c1State.totalSegments ∧ 0 ≤ c1State.currentPosition) ∧
    AdvanceAllSpec c1State :=
  ⟨by decide, by decide,
    advance_all_positions_and_sequence c1State (by decide) (by decide)⟩

/-- A two-variant state, both sequence numbers 0, used to refute C4. -/
def c4State : ClusterState :=
  { currentPosition := 0, sequenceNumber := 0,
    variants :=
      [{ index := 0, currentPosition := 0, sequenceNumber := 0, totalSegments := 5 },
        { index := 1, currentPosition := 0, sequenceNumber := 0, totalSegments := 3 }],
    totalSegments := 0 }

/-- Counterexample to C4: advancing only variant 0 (an in-range scope)
leaves variant 1's sequence number behind, so after the command the two
variants report different media-sequence numbers, and the top-level
sequence field is not incremented either. -/
theorem sequence_not_globally_shared :
    ((applyAdvanceWindow c4State 0).1.variants.getD 0 default).sequenceNumber = 1 ∧
    ((applyAdvanceWindow c4State 0).1.variants.getD 1 default).sequenceNumber = 0 ∧
    ((applyAdvanceWindow c4State 0).1.variants.getD 0 default).sequenceNumber
      ≠ ((applyAdvanceWindow c4State 0).1.variants.getD 1 default).sequenceNumber ∧
    (applyAdvanceWindow c4State 0).1.sequenceNumber = c4State.sequenceNumber := by
  decide

/-- What advances actually do to sequence numbers (amended C4): a scope-all
advance increments every variant's sequence number by one (keeping
synchronized variants synchronized) and leaves the top-level field alone;
a scope-`j` advance increments only variant `j`'s sequence number; in
single-playlist mode any advance increments the global field by one. -/
def SequencePerScopeSpec (s : ClusterState) : Prop :=
  (s.variants ≠ [] →
    (∀ i, i < s.variants.length →
      ((applyAdvanceWindow s (-1)).1.variants.getD i default).sequenceNumber
        = (s.variants.getD i default).sequenceNumber + 1) ∧
    (applyAdvanceWindow s (-1)).1.sequenceNumber = s.sequenceNumber ∧
    (∀ j : Int, 0 ≤ j → j < (s.variants.length : Int) →
      ((applyAdvanceWindow s j).1.variants.getD j.toNat default).sequenceNumber
          = (s.variants.getD j.toNat default).sequenceNumber + 1
        ∧ (∀ i, i < s.variants.length → i ≠ j.toNat →
            (applyAdvanceWindow s j).1.variants.getD i default
              = s.variants.getD i default)
        ∧ (applyAdvanceWindow s j).1.sequenceNumber = s.sequenceNumber)) ∧
  (s.variants = [] → ∀ j : Int,
    (applyAdvanceWindow s j).1.sequenceNumber = s.sequenceNumber + 1)

/-- Amended C4: the per-scope sequence behaviour of `applyAdvanceWindow`
— sequence numbers are per-variant, synchronized only under scope-all
advances. -/
theorem sequence_per_scope (s : ClusterState) : SequencePerScopeSpec s := by
  constructor
  · intro hne
    have hlen : ¬s.variants.length = 0 := by simpa using hne
    have hall : applyAdvanceWindow s (-1)
        = ({ s with variants := s.variants.map advanceVariant }, none) := by
      simp [applyAdvanceWindow, hlen]
    refine ⟨?_, by rw [hall], ?_⟩
    · intro i hi
      rw [hall, getD_map_of_lt _ _ i hi]
      simp [advanceVariant]
    · intro j hj0 hjlen
      have hjne : ¬j = -1 := by omega
      have hjN : j.toNat < s.variants.length := by omega
      have hspec : applyAdvanceWindow s j
          = ({ s with
                variants := s.variants.set j.toNat
                  (advanceVariant (s.variants.getD j.toNat default)) }, none) := by
        rw [applyAdvanceWindow, if_neg hlen, if_neg hjne,
          if_pos (And.intro hj0 hjlen)]
      refine ⟨?_, ?_, by rw [hspec]⟩
      · rw [hspec]
        show ((s.variants.set j.toNat
            (advanceVariant (s.variants.getD j.toNat default))).getD j.toNat default).sequenceNumber
          = (s.variants.getD j.toNat default).sequenceNumber + 1
        rw [getD_set_self _ _ _ hjN]
        simp [advanceVariant]
      · intro i hi hne'
        rw [hspec]
        exact getD_set_ne _ _ _ _ hne' hi
  · intro hempty j
    have hlen : s.variants.length = 0 := by simp [hempty]
    by_cases ht : 0 < s.totalSegments <;>
      simp [applyAdvanceWindow, hlen, ht]

/-- Witness for the amended C4 at `c1State`: both multi-variant scopes
behave as stated. -/
theorem sequence_per_scope_witness : SequencePerScopeSpec c1State :=
  sequence_per_scope c1State

/-- A single-playlist state with sequence number 1, used to refute C5. -/
def c5State : ClusterState :=
  { currentPosition := 0, sequenceNumber := 1, variants := [], totalSegments := 5 }

/-- Counterexample to C5: applying an `Initialize` command (with the
fresh payload the engine uses, sequence 0) to a state whose sequence
number is 1 succeeds and lowers the sequence number. -/
theorem sequence_decreases_on_initialize_command :
    (applyCmd c5State (.initializeState
      { currentPosition := 0, sequenceNumber := 0, variants := [],
        totalSegments := 5 })).2 = none ∧
    (applyCmd c5State (.initializeState
      { currentPosition := 0, sequenceNumber := 0, variants := [],
        totalSegments := 5 })).1.sequenceNumber < c5State.sequenceNumber := by
  decide

/-- Amended C5: the sequence numbers (global and per-variant) never
decrease across applied `AdvanceWindow` commands of any scope; an
`Initialize` command instead replaces the whole state with its payload,
which may lower them. -/
theorem sequence_monotone_on_advance (s : ClusterState) (j : Int) :
    s.sequenceNumber ≤ (applyCmd s (.advanceWindow j)).1.sequenceNumber ∧
    (∀ i, i < s.variants.length →
      (s.variants.getD i default).sequenceNumber
        ≤ ((applyCmd s (.advanceWindow j)).1.variants.getD i default).sequenceNumber) ∧
    (∀ t, applyCmd s (.initializeState t) = (t, none)) := by
  refine ⟨?_, ?_, fun t => rfl⟩
  · show s.sequenceNumber ≤ (applyAdvanceWindow s j).1.sequenceNumber
    by_cases h1 : s.variants.length = 0
    · simp [applyAdvanceWindow, h1]
    · by_cases h2 : j = -1
      · simp [applyAdvanceWindow, h1, h2]
      · by_cases h3 : 0 ≤ j ∧ j < (s.variants.length : Int)
        · simp [applyAdvanceWindow, h1, h2, h3]
        · simp [applyAdvanceWindow, h1, h2, h3]
  · intro i hi
    show (s.variants.getD i default).sequenceNumber
      ≤ ((applyAdvanceWindow s j).1.variants.getD i default).sequenceNumber
    by_cases h1 : s.variants.length = 0
    · omega
    · by_cases h2 : j = -1
      · have hres : applyAdvanceWindow s j
            = ({ s with variants := s.variants.map advanceVariant }, none) := by
          rw [applyAdvanceWindow, if_neg h1, if_pos h2]
        rw [hres]
        show (s.variants.getD i default).sequenceNumber
          ≤ ((s.variants.map advanceVariant).getD i default).sequenceNumber
        rw [getD_map_of_lt _ _ i hi]
        simp only [advanceVariant]
        omega
      · by_cases h3 : 0 ≤ j ∧ j < (s.variants.length : Int)
        · have hres : applyAdvanceWindow s j
              = ({ s with
                    variants := s.variants.set j.toNat
                      (advanceVariant (s.variants.getD j.toNat default)) }, none) := by
            rw [applyAdvanceWindow, if_neg h1, if_neg h2, if_pos h3]
          rw [hres]
          show (s.variants.getD i default).sequenceNumber
            ≤ ((s.variants.set j.toNat
                (advanceVariant (s.variants.getD j.toNat default))).getD i default).sequenceNumber
          by_cases he : i = j.toNat
          · subst he
            rw [getD_set_self _ _ _ hi]
            simp only [advanceVariant]
            omega
          · rw [getD_set_ne _ _ _ _ he hi]
        · have hres : applyAdvanceWindow s j = (s, none) := by
            rw [applyAdvanceWindow, if_neg h1, if_neg h2, if_neg h3]
          rw [hres]

/-- Witness for the amended C5 at `c1State` with scope all. -/
theorem sequence_monotone_on_advance_witness :
    c1State.sequenceNumber ≤ (applyCmd c1State (.advanceWindow (-1))).1.sequenceNumber ∧
    (∀ i, i < c1State.variants.length →
      (c1State.variants.getD i default).sequenceNumber
        ≤ ((applyCmd c1State (.advanceWindow (-1))).1.variants.getD i default).sequenceNumber) ∧
    (∀ t, applyCmd c1State (.initializeState t) = (t, none)) :=
  sequence_monotone_on_advance c1State (-1)

/-- A state whose recorded totals are already non-empty (one variant with
total 5, single-playlist total 10), used to refute C8's
`AlreadyInitialized` clause. -/
def c8State : ClusterState :=
  { currentPosition := 2, sequenceNumber := 7,
    variants :=
      [{ index := 0, currentPosition := 1, sequenceNumber := 4, totalSegments := 5 }],
    totalSegments := 10 }

/-- A fresh `Initialize` payload. -/
def c8Payload : ClusterState :=
  { currentPosition := 0, sequenceNumber := 0,
    variants :=
      [{ index := 0, currentPosition := 0, sequenceNumber := 0, totalSegments := 5 }],
    totalSegments := 0 }

/-- Counterexample to C8: applying `Initialize` to a state whose totals
are already non-empty does not fail with any error — the FSM simply
overwrites its state with the payload. -/
theorem initialize_no_already_initialized_error :
    c8State.variants ≠ [] ∧
    (applyCmd c8State (.initializeState c8Payload)).2 = none ∧
    (applyCmd c8State (.initializeState c8Payload)).1 = c8Payload := by
  decide

/-- Amended C8: `applyInitialize` never fails: it unconditionally replaces
the FSM state with the command's payload (there is no `AlreadyInitialized`
check), and applying it twice with an identical payload leaves the FSM in
the same state as applying it once. -/
theorem initialize_overwrites_and_is_idempotent (s t : ClusterState) :
    applyCmd s (.initializeState t) = (t, none) ∧
    applyCmd (applyCmd s (.initializeState t)).1 (.initializeState t)
      = applyCmd s (.initializeState t) :=
  ⟨rfl, rfl⟩

/-- A single-playlist state (no variants, total 5), used to refute C9's
universal quantification over FSM states. -/
def c9State : ClusterState :=
  { currentPosition := 0, sequenceNumber := 0, variants := [], totalSegments := 5 }

/-- Counterexample to C9: in a single-playlist FSM state (no variants),
an `AdvanceWindow` naming variant index 7 — out of range for the empty
variant set — still advances the position, so it is not a no-op (though
it does return success). -/
theorem out_of_range_advance_not_noop_single_mode :
    (applyAdvanceWindow c9State 7).2 = none ∧
    (applyAdvanceWindow c9State 7).1.currentPosition ≠ c9State.currentPosition := by
  decide

/-- Amended C9: in every FSM state with at least one variant, an
`AdvanceWindow` whose scope names an out-of-range variant index (other
than the all-variants scope `-1`) is a no-op that returns success: the
state, every position included, is left unchanged and no error is
returned. -/
theorem out_of_range_advance_noop_multi (s : ClusterState) (j : Int)
    (hne : s.variants ≠ []) (hj : j ≠ -1)
    (hout : j < 0 ∨ (s.variants.length : Int) ≤ j) :
    applyAdvanceWindow s j = (s, none) := by
  have h1 : ¬s.variants.length = 0 := by simpa using hne
  have h3 : ¬(0 ≤ j ∧ j < (s.variants.length : Int)) := by omega
  rw [applyAdvanceWindow, if_neg h1, if_neg hj, if_neg h3]

/-- Witness for the amended C9 at `c1State` (two variants) and index 7. -/
theorem out_of_range_advance_noop_multi_witness :
    c1State.variants ≠ [] ∧ (7 : Int) ≠ -1 ∧
    ((7 : Int) < 0 ∨ (c1State.variants.length : Int) ≤ 7) ∧
    applyAdvanceWindow c1State 7 = (c1State, none) :=
  ⟨by decide, by decide, by decide,
    out_of_range_advance_noop_multi c1State 7 (by decide) (by decide) (by decide)⟩

/-- C10: applying an `AdvanceWindow` is total and never reaches the
modulo when a total is zero: it always returns success, and every
affected variant (or the single playlist) whose recorded total is 0
keeps its position unchanged while its sequence number is still
incremented. -/
theorem advance_zero_total_safe (s : ClusterState) (j : Int) :
    (applyAdvanceWindow s j).2 = none ∧
    (s.variants = [] → s.totalSegments = 0 →
      (applyAdvanceWindow s j).1.currentPosition = s.currentPosition ∧
      (applyAdvanceWindow s j).1.sequenceNumber = s.sequenceNumber + 1) ∧
    (∀ i, i < s.variants.length →
      (s.variants.getD i default).totalSegments = 0 →
      ((applyAdvanceWindow s (-1)).1.variants.getD i default).currentPosition
          = (s.variants.getD i default).currentPosition ∧
      ((applyAdvanceWindow s (-1)).1.variants.getD i default).sequenceNumber
          = (s.variants.getD i default).sequenceNumber + 1) ∧
    (0 ≤ j → j < (s.variants.length : Int) →
      (s.variants.getD j.toNat default).totalSegments = 0 →
      ((applyAdvanceWindow s j).1.variants.getD j.toNat default).currentPosition
          = (s.variants.getD j.toNat default).currentPosition ∧
      ((applyAdvanceWindow s j).1.variants.getD j.toNat default).sequenceNumber
          = (s.variants.getD j.toNat default).sequenceNumber + 1) := by
  refine ⟨?_, ?_, ?_, ?_⟩
  · by_cases h1 : s.variants.length = 0
    · simp [applyAdvanceWindow, h1]
    · by_cases h2 : j = -1
      · simp [applyAdvanceWindow, h1, h2]
      · by_cases h3 : 0 ≤ j ∧ j < (s.variants.length : Int)
        · simp [applyAdvanceWindow, h1, h2, h3]
        · simp [applyAdvanceWindow, h1, h2, h3]
  · intro hempty htot0
    have hlen : s.variants.length = 0 := by simp [hempty]
    have hres : applyAdvanceWindow s j
        = ({ s with
              currentPosition := s.currentPosition,
              sequenceNumber := s.sequenceNumber + 1 }, none) := by
      rw [applyAdvanceWindow, if_pos hlen, htot0,
        if_neg (by omega : ¬(0 : Int) < 0)]
    rw [hres]
    exact ⟨rfl, rfl⟩
  · intro i hi htot0
    have h1 : ¬s.variants.length = 0 := by omega
    have hres : applyAdvanceWindow s (-1)
        = ({ s with variants := s.variants.map advanceVariant }, none) := by
      rw [applyAdvanceWindow, if_neg h1, if_pos rfl]
    constructor
    · rw [hres]
      show ((s.variants.map advanceVariant).getD i default).currentPosition
        = (s.variants.getD i default).currentPosition
      rw [getD_map_of_lt _ _ i hi]
      simp only [advanceVariant]
      rw [htot0, if_neg (by omega : ¬(0 : Int) < 0)]
    · rw [hres]
      show ((s.variants.map advanceVariant).getD i default).sequenceNumber
        = (s.variants.getD i default).sequenceNumber + 1
      rw [getD_map_of_lt _ _ i hi]
      rfl
  · intro hj0 hjlen htot0
    have h1 : ¬s.variants.length = 0 := by omega
    have h2 : ¬j = -1 := by omega
    have hjN : j.toNat < s.variants.length := by omega
    have hres : applyAdvanceWindow s j
        = ({ s with
              variants := s.variants.set j.toNat
                (advanceVariant (s.variants.getD j.toNat default)) }, none) := by
      rw [applyAdvanceWindow, if_neg h1, if_neg h2, if_pos (And.intro hj0 hjlen)]
    constructor
    · rw [hres]
      show ((s.variants.set j.toNat
          (advanceVariant (s.variants.getD j.toNat default))).getD j.toNat default).currentPosition
        = (s.variants.getD j.toNat default).currentPosition
      rw [getD_set_self _ _ _ hjN]
      simp only [advanceVariant]
      rw [htot0, if_neg (by omega : ¬(0 : Int) < 0)]
    · rw [hres]
      show ((s.variants.set j.toNat
          (advanceVariant (s.variants.getD j.toNat default))).getD j.toNat default).sequenceNumber
        = (s.variants.getD j.toNat default).sequenceNumber + 1
      rw [getD_set_self _ _ _ hjN]
      rfl

/-- A state with one zero-total variant, for the C10 witness. -/
def c10State : ClusterState :=
  { currentPosition := 0, sequenceNumber := 0,
    variants :=
      [{ index := 0, currentPosition := 3, sequenceNumber := 9, totalSegments := 0 }],
    totalSegments := 0 }

/-- Witness for C10 at `c10State` with scope 0 (its only variant has
total 0). -/
theorem advance_zero_total_safe_witness :
    (applyAdvanceWindow c10State 0).2 = none ∧
    (c10State.variants = [] → c10State.totalSegments = 0 →
      (applyAdvanceWindow c10State 0).1.currentPosition = c10State.currentPosition ∧
      (applyAdvanceWindow c10State 0).1.sequenceNumber = c10State.sequenceNumber + 1) ∧
    (∀ i, i < c10State.variants.length →
      (c10State.variants.getD i default).totalSegments = 0 →
      ((applyAdvanceWindow c10State (-1)).1.variants.getD i default).currentPosition
          = (c10State.variants.getD i default).currentPosition ∧
      ((applyAdvanceWindow c10State (-1)).1.variants.getD i default).sequenceNumber
          = (c10State.variants.getD i default).sequenceNumber + 1) ∧
    ((0 : Int) ≤ 0 → (0 : Int) < (c10State.variants.length : Int) →
      (c10State.variants.getD (0 : Int).toNat default).totalSegments = 0 →
      ((applyAdvanceWindow c10State 0).1.variants.getD (0 : Int).toNat default).currentPosition
          = (c10State.variants.getD (0 : Int).toNat default).currentPosition ∧
      ((applyAdvanceWindow c10State 0).1.variants.getD (0 : Int).toNat default).sequenceNumber
          = (c10State.variants.getD (0 : Int).toNat default).sequenceNumber + 1) :=
  advance_zero_total_safe c10State 0

/-! ## HTTP routing claim (C3) -/

theorem fail_msg_split :
    ("Failed to generate variant playlist: variant index " : String)
      = "Failed to generate variant playlist: " ++ "variant index " :=
  rfl

theorem range_msg_split :
    (" out of range\n" : String) = " out of range" ++ "\n" :=
  rfl

/-- A one-variant playlist (so index 0 is in range), used against C3. -/
def c3Playlist : Playlist :=
  { variants := c2Variants,
    variantPlaylists :=
      [{ segments := c6Segments, windowSize := 3, currentPosition := 0,
          sequenceNumber := 0, targetDuration := 1 }] }

/-- Counterexample to C3: a GET of `/variant/0/playlist.m3u8` — the
slash-separated URL shape the claim describes — returns status 400 (the
handler trims `/variant` and `/playlist.m3u8` and fails to parse `/0` as
an integer), not the variant 0 manifest with 200, even though index 0 is
in range. -/
theorem slash_variant_url_returns_400 :
    0 < c3Playlist.variantPlaylists.length ∧
    (handleVariantPlaylist c3Playlist "/variant/0/playlist.m3u8".data).1 = 400 := by
  decide

/-- Amended C3: for the URL shape the handler actually parses,
`/variant<N>/playlist.m3u8` with the index directly after `variant` (any
string `Atoi` accepts), the response is the variant `N` media manifest
with status 200 when `N` is in range and status 404 when out of range;
the slash-separated shape `/variant/<N>/playlist.m3u8` is rejected with
400. -/
theorem variant_route_without_slash (p : Playlist) (ds : List Char) (n : Int)
    (hparse : goAtoi ds = some n) :
    handleVariantPlaylist p ("/variant".data ++ (ds ++ "/playlist.m3u8".data))
      = if 0 ≤ n ∧ n < (p.variantPlaylists.length : Int) then
          (200, generateMedia (p.variantPlaylists.getD n.toNat default))
        else
          (404, "Failed to generate variant playlist: variant index "
            ++ toString n ++ " out of range\n") := by
  have hpre : hasPrefixL "/variant".data
      ("/variant".data ++ (ds ++ "/playlist.m3u8".data)) = true := by
    rw [hasPrefixL, List.isPrefixOf_iff_prefix]
    exact List.prefix_append _ _
  have hsuf : hasSuffixL "/playlist.m3u8".data
      ("/variant".data ++ (ds ++ "/playlist.m3u8".data)) = true := by
    rw [hasSuffixL, List.isSuffixOf_iff_suffix, ← List.append_assoc]
    exact List.suffix_append _ _
  have e1 : trimPrefixL "/variant".data
      ("/variant".data ++ (ds ++ "/playlist.m3u8".data))
      = ds ++ "/playlist.m3u8".data := by
    rw [trimPrefixL, if_pos (by rw [ List.isPrefixOf_iff_prefix]; exact List.prefix_append _ _)]
    exact List.drop_left _ _
  have e2 : trimSuffixL "/playlist.m3u8".data (ds ++ "/playlist.m3u8".data) = ds := by
    rw [trimSuffixL,
      if_pos (by rw [List.isSuffixOf_iff_suffix]; exact List.suffix_append _ _),
      List.length_append]
    have : ds.length + "/playlist.m3u8".data.length - "/playlist.m3u8".data.length
        = ds.length := by omega
    rw [this]
    exact List.take_left _ _
  rw [handleVariantPlaylist, if_neg (by rw [hpre, hsuf]; simp), e1, e2, hparse]
  simp only [Playlist.generateVariant]
  by_cases hn : 0 ≤ n ∧ n < (p.variantPlaylists.length : Int)
  · rw [if_neg (by omega : ¬(n < 0 ∨ (p.variantPlaylists.length : Int) ≤ n)),
      if_pos hn]
  · rw [if_pos (by omega : n < 0 ∨ (p.variantPlaylists.length : Int) ≤ n),
      if_neg hn]
    simp only [fail_msg_split, range_msg_split, String.append_assoc]

/-- Witness for the amended C3: `/variant0/playlist.m3u8` on the
one-variant playlist serves variant 0's manifest with status 200. -/
theorem variant_route_without_slash_witness :
    goAtoi ['0'] = some 0 ∧
    handleVariantPlaylist c3Playlist
        ("/variant".data ++ (['0'] ++ "/playlist.m3u8".data))
      = if 0 ≤ (0 : Int) ∧ (0 : Int) < (c3Playlist.variantPlaylists.length : Int) then
          (200, generateMedia (c3Playlist.variantPlaylists.getD (0 : Int).toNat default))
        else
          (404, "Failed to generate variant playlist: variant index "
            ++ toString (0 : Int) ++ " out of range\n") :=
  ⟨by decide, variant_route_without_slash c3Playlist ['0'] 0 (by decide)⟩

/-- Witness for C2 at the spec's two-variant example. -/
theorem master_manifest_shape_witness :
    generateMaster c2Variants = joinLines (specMasterLines c2Variants) :=
  master_manifest_shape.1 c2Variants

/-- Witness for C6 at the basic-wrap example state. -/
theorem media_discontinuity_placement_witness :
    generateMedia c6Mp
      = joinLines (mediaHeaderLines c6Mp ++ specSegBlocks none (getCurrentWindow c6Mp)) :=
  media_discontinuity_placement.1 c6Mp

/-- Witness for C7 at a concrete two-field, one-variant state. -/
theorem snapshot_restore_roundtrip_witness :
    restoreState (persistSnapshot (snapshotOf c8State)) = some c8State :=
  snapshot_restore_roundtrip c8State

/-- Witness for the amended C8 at a concrete state and payload. -/
theorem initialize_overwrites_and_is_idempotent_witness :
    applyCmd c8State (.initializeState c8Payload) = (c8Payload, none) ∧
    applyCmd (applyCmd c8State (.initializeState c8Payload)).1
        (.initializeState c8Payload)
      = applyCmd c8State (.initializeState c8Payload) :=
  initialize_overwrites_and_is_idempotent c8State c8Payload

end Encodersim
